import Mathlib

/-!
Verification of the spreadsheet-backed contact store of `contactos-api`
(repositories/contacto_repository.go, repositories/simple_optimized_repository.go,
services/contacto_service.go).

The Go code is shallowly embedded: strings are Lean strings (lists of
characters), Go `int` is `Int` (with the `strconv.Atoi` 64-bit range check made
explicit), spreadsheet rows are lists of cell strings, and the spreadsheet file
itself is a list of rows (header first).  Effects (file writes, stdout, the
mutexes and metrics of the optimized repository) are modelled by returning the
written file contents explicitly and by dropping the metrics, which no claim
mentions.
-/

/-! ## Go string primitives -/

/-- Model of Go `strings.TrimSpace` on the character list of a string. -/
def trimCharList (l : List Char) : List Char :=
  ((l.dropWhile Char.isWhitespace).reverse.dropWhile Char.isWhitespace).reverse

/-- Model of Go `strings.TrimSpace`. -/
def goTrimSpace (s : String) : String :=
  String.mk (trimCharList s.data)

/-- Model of Go `strings.ToLower` (ASCII letters; no claim involves non-ASCII case). -/
def goToLower (s : String) : String :=
  String.mk (s.data.map Char.toLower)

/-- Model of Go `strings.Contains s sub`: `sub` occurs as a contiguous substring
of `s`.  Byte-level and character-level containment agree on valid UTF-8. -/
def goContains (s sub : String) : Bool :=
  decide (List.IsInfix sub.data s.data)

/-- Numeric value of a decimal digit character. -/
def digitVal (c : Char) : Nat := c.toNat - 48

/-- Fold a big-endian list of digit characters into a natural number. -/
def foldDigits (cs : List Char) : Nat :=
  cs.foldl (fun n c => n * 10 + digitVal c) 0

/-- Parse a nonempty all-digit character list, as Go `strconv.Atoi` does after
stripping the optional sign. -/
def parseDigits (cs : List Char) : Option Nat :=
  if cs = [] then none
  else if cs.all Char.isDigit then some (foldDigits cs)
  else none

/-- Largest value of Go `int` (64-bit). -/
def int64Max : Int := 2 ^ 63 - 1

/-- Smallest value of Go `int` (64-bit). -/
def int64Min : Int := -(2 ^ 63)

/-- Whether a value fits in Go `int`; `strconv.Atoi` fails outside this range. -/
def inInt64Range (n : Int) : Bool := decide (int64Min ≤ n ∧ n ≤ int64Max)

/-- Model of Go `strconv.Atoi`: optional sign, one or more decimal digits,
64-bit range check; `none` models a non-nil error. -/
def goAtoi (s : String) : Option Int :=
  let core : Option Int :=
    match s.data with
    | [] => none
    | c :: rest =>
      if c = '+' then (parseDigits rest).map (fun n => (n : Int))
      else if c = '-' then (parseDigits rest).map (fun n => -(n : Int))
      else (parseDigits (c :: rest)).map (fun n => (n : Int))
  match core with
  | some n => if inInt64Range n then some n else none
  | none => none

/-- Big-endian decimal digit characters of `n`; `fuel` bounds the recursion and
any `fuel ≥ n` gives the exact decimal representation. -/
def natToChars : Nat → Nat → List Char
  | 0, _ => []
  | fuel + 1, n =>
    if n < 10 then [Char.ofNat (48 + n)]
    else natToChars fuel (n / 10) ++ [Char.ofNat (48 + n % 10)]

/-- Model of Go `strconv.Itoa`. -/
def goItoa (k : Int) : String :=
  if k < 0 then String.mk ('-' :: natToChars k.natAbs k.natAbs)
  else if k = 0 then "0"
  else String.mk (natToChars k.toNat k.toNat)

/-! ## Data model (models/contacto.go, models/excel_model.go) -/

/-- `models.Contacto`: one validated contact record. -/
structure Contacto where
  claveCliente : Int
  nombre : String
  correo : String
  telefonoContacto : String
deriving DecidableEq, Repr

/-- `models.ContactoDTO`: the search criteria (all fields optional, empty string
means absent). -/
structure ContactoDTO where
  claveCliente : String
  nombre : String
  correo : String
  telefono : String
deriving DecidableEq, Repr

/-- `models.RowData`: raw snapshot of one source row (the `Errors` message list
is unused by the loaders under verification and omitted). -/
structure RowData where
  claveCliente : String
  nombre : String
  correo : String
  telefonoContacto : String
  hasErrors : Bool
  errorCount : Nat
deriving DecidableEq, Repr

/-- `models.RowError`: one validation failure tied to a source row.  The
`rowData` field models the Go pointer by holding the final value of the
referenced snapshot. -/
structure RowError where
  row : Nat
  column : String := ""
  field : String := ""
  value : String := ""
  error : String := ""
  rowData : Option RowData := none
deriving DecidableEq, Repr

/-- `models.ExcelValidationReport` (the wall-clock `LoadTimestamp` is outside
the embedding; no claim mentions it). -/
structure ExcelValidationReport where
  totalRows : Nat
  validRows : Nat
  invalidRows : Nat
  errors : List RowError
  invalidRowsData : List RowData
deriving DecidableEq, Repr

/-! ## Basic repository: search and point reads
(repositories/contacto_repository.go, first variant) -/

/-- The per-contact filter of `ContactoRepository.Search` (lines 110-154): the
`match` flag is the conjunction of the four criteria checks. -/
def searchMatch (criteria : ContactoDTO) (contacto : Contacto) : Bool :=
  (criteria.claveCliente == "" ||
    (match goAtoi criteria.claveCliente with
     | some clave => contacto.claveCliente == clave
     | none => false)) &&
  (criteria.nombre == "" ||
    goContains (goToLower contacto.nombre) (goToLower criteria.nombre)) &&
  (criteria.correo == "" ||
    goContains (goToLower contacto.correo) (goToLower criteria.correo)) &&
  (criteria.telefono == "" ||
    goContains contacto.telefonoContacto criteria.telefono)

/-- `ContactoRepository.Search`: linear scan keeping every matching contact. -/
def searchBasic (contactos : List Contacto) (criteria : ContactoDTO) : List Contacto :=
  contactos.filter (searchMatch criteria)

/-- `ContactoRepository.GetByID`: first contact with the given key, or the
not-found error. -/
def getByID (contactos : List Contacto) (claveCliente : Int) : Except String Contacto :=
  match contactos.find? (fun c => c.claveCliente == claveCliente) with
  | some c => .ok c
  | none => .error ("contacto con clave " ++ toString claveCliente ++ " no encontrado")

/-- `ContactoRepository.ExistsByID` (lines 157-163): converts the `GetByID`
outcome to a boolean, always with a nil error. -/
def existsByID (contactos : List Contacto) (claveCliente : Int) : Bool × Option String :=
  match getByID contactos claveCliente with
  | .error _ => (false, none)
  | .ok _ => (true, none)

/-- `ContactoRepository.saveToExcel`: the header row followed by one row per
contact in collection order; the returned value is the written file. -/
def saveToExcel (contactos : List Contacto) : List (List String) :=
  ["ClaveCliente", "Nombre", "Correo", "TelefonoContacto"] ::
    contactos.map (fun c => [goItoa c.claveCliente, c.nombre, c.correo, c.telefonoContacto])

/-! ## Validated loader (ContactoRepository.loadFromExcel, lines 178-409) -/

/-- The structural error for a row with fewer than 4 columns. -/
def structuralError (cur : Nat) : RowError :=
  { row := cur, column := "general", field := "estructura", value := "",
    error := "La fila debe contener exactamente 4 columnas: ClaveCliente, Nombre, Correo, TelefonoContacto" }

/-- The empty-field errors of one row, in source order (columns A-D), one per
empty trimmed field. -/
def emptyFieldErrors (cur : Nat) (claveStr nombre correo telefono : String) : List RowError :=
  (if claveStr = "" then
    [{ row := cur, column := "A", field := "claveCliente", value := claveStr,
       error := "La clave cliente no puede estar vacía" }] else []) ++
  (if nombre = "" then
    [{ row := cur, column := "B", field := "nombre", value := nombre,
       error := "El nombre no puede estar vacío" }] else []) ++
  (if correo = "" then
    [{ row := cur, column := "C", field := "correo", value := correo,
       error := "El correo no puede estar vacío" }] else []) ++
  (if telefono = "" then
    [{ row := cur, column := "D", field := "telefonoContacto", value := telefono,
       error := "El teléfono no puede estar vacío" }] else [])

/-- The integer-format error for a key that `strconv.Atoi` rejects. -/
def claveFormatError (cur : Nat) (claveStr : String) : RowError :=
  { row := cur, column := "A", field := "claveCliente", value := claveStr,
    error := "La clave cliente debe ser un número entero válido" }

/-- The duplicate-key error of the validated loader. -/
def dupKeyError (cur : Nat) (claveStr : String) (clave : Int) : RowError :=
  { row := cur, column := "A", field := "claveCliente", value := claveStr,
    error := "La clave cliente " ++ toString clave ++ " ya existe en el archivo" }

/-- The field checks that run once the key has parsed, in source order:
key > 0, phone length (Go byte length), phone digits-only, email `@`,
duplicate key against the records accepted so far. -/
def fieldCheckErrors (cur : Nat) (claveStr correo telefono : String) (clave : Int)
    (contactos : List Contacto) : List RowError :=
  (if clave ≤ 0 then
    [{ row := cur, column := "A", field := "claveCliente", value := claveStr,
       error := "La clave cliente debe ser un número mayor a 0" }] else []) ++
  (if telefono.utf8ByteSize ≠ 10 then
    [{ row := cur, column := "D", field := "telefonoContacto", value := telefono,
       error := "El teléfono debe tener exactamente 10 dígitos" }] else []) ++
  (if telefono.data.any (fun ch => ch < '0' || '9' < ch) then
    [{ row := cur, column := "D", field := "telefonoContacto", value := telefono,
       error := "El teléfono debe contener solo números" }] else []) ++
  (if !goContains correo "@" then
    [{ row := cur, column := "C", field := "correo", value := correo,
       error := "El correo debe contener @" }] else []) ++
  (if contactos.any (fun c => c.claveCliente == clave) then
    [dupKeyError cur claveStr clave] else [])

/-- In-memory state built by `ContactoRepository.loadFromExcel`. -/
structure LoadState where
  contactos : List Contacto
  loadErrors : List RowError
deriving DecidableEq, Repr

/-- The validated loader's handling of a data row with at least 4 cells,
applied to the 4 trimmed cell values: empty-field stage (appending its errors
and stopping), then integer parsing of the key (stopping on failure), then the
five remaining checks followed by the has-errors-for-this-row scan that
decides whether the record is accepted. -/
def processFullRow (st : LoadState) (cur : Nat) (claveStr nombre correo telefono : String) :
    LoadState :=
  if (emptyFieldErrors cur claveStr nombre correo telefono).length > 0 then
    { st with loadErrors := st.loadErrors ++ emptyFieldErrors cur claveStr nombre correo telefono }
  else
    match goAtoi claveStr with
    | none => { st with loadErrors := st.loadErrors ++ [claveFormatError cur claveStr] }
    | some clave =>
      if (st.loadErrors ++ fieldCheckErrors cur claveStr correo telefono clave st.contactos).any
          (fun e => e.row == cur) then
        { st with loadErrors :=
            st.loadErrors ++ fieldCheckErrors cur claveStr correo telefono clave st.contactos }
      else
        { contactos := st.contactos ++
            [{ claveCliente := clave, nombre := nombre, correo := correo,
               telefonoContacto := telefono }],
          loadErrors :=
            st.loadErrors ++ fieldCheckErrors cur claveStr correo telefono clave st.contactos }

/-- One iteration of the `ForEachRow` body of the validated
`ContactoRepository.loadFromExcel` for a data row: `cur` is the 1-based
spreadsheet row number (`rowIndex + 1`). -/
def processDataRow (st : LoadState) (cur : Nat) (cells : List String) : LoadState :=
  if cells.length < 4 then
    if cells.any (fun c => goTrimSpace c ≠ "") then
      { st with loadErrors := st.loadErrors ++ [structuralError cur] }
    else st
  else
    processFullRow st cur (goTrimSpace (cells.getD 0 "")) (goTrimSpace (cells.getD 1 ""))
      (goTrimSpace (cells.getD 2 "")) (goTrimSpace (cells.getD 3 ""))

/-- Iterate `processDataRow` over the data rows; `i` is the `rowIndex` of the
next row, so the row is reported as spreadsheet row `i + 1`. -/
def loadAux : LoadState → Nat → List (List String) → LoadState
  | st, _, [] => st
  | st, i, cells :: rest => loadAux (processDataRow st (i + 1) cells) (i + 1) rest

/-- `ContactoRepository.loadFromExcel` over the rows of the first sheet: the
header row (rowIndex 0) is skipped, every later row is validated. -/
def loadFromExcel (rows : List (List String)) : LoadState :=
  match rows with
  | [] => { contactos := [], loadErrors := [] }
  | _header :: dataRows => loadAux { contactos := [], loadErrors := [] } 1 dataRows

/-! ## Repository-level load, reload and create -/

/-- The three file-level shapes a load can encounter: an unopenable file, a
workbook with no sheets, or a readable first sheet with its rows. -/
inductive LoadInput where
  | openError
  | noSheets
  | sheet (rows : List (List String))

/-- `ContactoRepository` state: the collection plus the retained load errors. -/
structure Repo where
  contactos : List Contacto
  loadErrors : List RowError
deriving DecidableEq, Repr

/-- `ContactoRepository.loadFromExcel` at the repository level (lines 178-190):
file-level problems return an error and leave the collection untouched; a
readable sheet replaces the collection and returns the row errors as data. -/
def repoLoadFromExcel (r : Repo) (input : LoadInput) : Repo × Except String (List RowError) :=
  match input with
  | .openError => (r, .error "error abriendo archivo Excel")
  | .noSheets => (r, .error "el archivo Excel no tiene hojas")
  | .sheet rows =>
    let st := loadFromExcel rows
    ({ r with contactos := st.contactos }, .ok st.loadErrors)

/-- `NewContactoRepository` (lines 35-51): start empty, attempt the initial
load, keep whatever load errors came back (nil on a failed load). -/
def newContactoRepository (input : LoadInput) : Repo :=
  let r0 : Repo := { contactos := [], loadErrors := [] }
  let (r1, res) := repoLoadFromExcel r0 input
  match res with
  | .ok errs => { r1 with loadErrors := errs }
  | .error _ => { r1 with loadErrors := [] }

/-- `ContactoRepository.ReloadExcel` (lines 171-175). -/
def reloadExcel (r : Repo) (input : LoadInput) : Repo × List RowError × Option String :=
  let (r1, res) := repoLoadFromExcel r input
  match res with
  | .ok errs => ({ r1 with loadErrors := errs }, errs, none)
  | .error e => ({ r1 with loadErrors := [] }, [], some e)

/-- `ContactoRepository.Create` (lines 69-84): result state, the file written
by `saveToExcel` (`none` when no save happens), and the returned error. -/
def createBasic (r : Repo) (contacto : Contacto) :
    Repo × Option (List (List String)) × Option String :=
  match existsByID r.contactos contacto.claveCliente with
  | (_, some e) => (r, none, some e)
  | (true, none) =>
    (r, none, some ("contacto con clave " ++ toString contacto.claveCliente ++ " ya existe"))
  | (false, none) =>
    let contactos := r.contactos ++ [contacto]
    ({ r with contactos := contactos }, some (saveToExcel contactos), none)

/-! ## Optimized repository (simple_optimized_repository.go) -/

/-- Lookup in a Go map modelled as an association list where the most recent
insertion sits at the front. -/
def mapLookup {α β : Type} [BEq α] (m : List (α × β)) (k : α) : Option β :=
  (m.find? (fun p => p.1 == k)).map (fun p => p.2)

/-- Insert/overwrite in a Go map model; the erase keeps the entry count equal
to the Go map size. -/
def mapInsert {α β : Type} [BEq α] (m : List (α × β)) (k : α) (v : β) : List (α × β) :=
  (k, v) :: m.eraseP (fun p => p.1 == k)

/-- `buildBasicIndices` (lines 792-801): key index and lowercase-email index
rebuilt from the collection; later contacts overwrite earlier map entries. -/
def buildBasicIndices (contactos : List Contacto) :
    List (Int × Contacto) × List (String × Contacto) :=
  contactos.foldl
    (fun acc c => (mapInsert acc.1 c.claveCliente c, mapInsert acc.2 (goToLower c.correo) c))
    ([], [])

/-- `SimpleOptimizedContactoRepository` state (locks and metrics dropped;
`none` indices model the nil maps before `buildBasicIndices` runs). -/
structure OptRepo where
  contactos : List Contacto
  loadErrors : List RowError
  invalidRowsData : List RowData
  indiceClaveCliente : Option (List (Int × Contacto))
  indiceCorreo : Option (List (String × Contacto))
  searchCache : List (String × List Contacto)
  useOptimization : Bool
  cacheMaxSize : Nat
deriving Repr

/-- `SimpleOptimizedContactoRepository.GetByID` (lines 813-834): index lookup
when available, sequential scan otherwise; a missing index entry is not
retried sequentially. -/
def optGetByID (r : OptRepo) (claveCliente : Int) : Option Contacto :=
  match r.indiceClaveCliente with
  | some idx =>
    if r.useOptimization then mapLookup idx claveCliente
    else r.contactos.find? (fun c => c.claveCliente == claveCliente)
  | none => r.contactos.find? (fun c => c.claveCliente == claveCliente)

/-- `generateCacheKey` (lines 1070-1073). -/
def generateCacheKey (criteria : ContactoDTO) : String :=
  "c:" ++ criteria.claveCliente ++ "|n:" ++ criteria.nombre ++
    "|e:" ++ criteria.correo ++ "|t:" ++ criteria.telefono

/-- `sequentialSearch` (lines 890-929): textually the same filter as the basic
repository's `Search`. -/
def sequentialSearch (contactos : List Contacto) (criteria : ContactoDTO) : List Contacto :=
  contactos.filter (searchMatch criteria)

/-- `SimpleOptimizedContactoRepository.Search` (lines 836-887): result cache,
then a key fast path, then an exact lowercase-email fast path, then the
sequential scan; small result sets are cached, flushing at capacity. -/
def optSearch (r : OptRepo) (criteria : ContactoDTO) : List Contacto × OptRepo :=
  let cacheKey := generateCacheKey criteria
  match (if r.useOptimization then mapLookup r.searchCache cacheKey else none) with
  | some cached => (cached, r)
  | none =>
    let resultados : List Contacto :=
      if criteria.claveCliente ≠ "" then
        match goAtoi criteria.claveCliente with
        | some clave =>
          match optGetByID r clave with
          | some contacto => [contacto]
          | none => []
        | none => []
      else if criteria.correo ≠ "" && r.indiceCorreo.isSome then
        match r.indiceCorreo with
        | some idx =>
          match mapLookup idx (goToLower criteria.correo) with
          | some contacto => [contacto]
          | none => []
        | none => []
      else sequentialSearch r.contactos criteria
    let r' :=
      if r.useOptimization && resultados.length < 100 then
        let cache0 := if r.searchCache.length ≥ r.cacheMaxSize then [] else r.searchCache
        { r with searchCache := mapInsert cache0 cacheKey resultados }
      else r
    (resultados, r')

/-- `clearCache` (lines 1075-1081). -/
def clearCache (r : OptRepo) : OptRepo :=
  if r.useOptimization then { r with searchCache := [] } else r

/-- `SimpleOptimizedContactoRepository.Create` (lines 931-958): the duplicate
check runs only through the key index when it exists; result state, written
file (`none` when no save happens) and returned error. -/
def optCreate (r : OptRepo) (contacto : Contacto) :
    OptRepo × Option (List (List String)) × Option String :=
  let conflict :=
    match r.indiceClaveCliente with
    | some idx => (mapLookup idx contacto.claveCliente).isSome
    | none => false
  if conflict then
    (r, none, some ("contacto con clave " ++ toString contacto.claveCliente ++ " ya existe"))
  else
    let contactos := r.contactos ++ [contacto]
    let r1 := { r with
      contactos := contactos
      indiceClaveCliente := r.indiceClaveCliente.map
        (fun idx => mapInsert idx contacto.claveCliente contacto)
      indiceCorreo := r.indiceCorreo.map
        (fun idx => mapInsert idx (goToLower contacto.correo) contacto) }
    (clearCache r1, some (saveToExcel contactos), none)

/-! ## Optimized loader (SimpleOptimizedContactoRepository.loadFromExcel,
lines 1107-1244) -/

/-- State produced by the optimized loader. -/
structure SimpleLoadState where
  contactos : List Contacto
  loadErrors : List RowError
  invalidRowsData : List RowData
deriving DecidableEq, Repr

/-- One iteration of the optimized loader's `ForEachRow` body for a data row:
cells are trimmed as read into a 4-slot array; short rows always get a
structural error; full rows run the four combined checks, and a pointer to the
snapshot (its final value) is attached to every error. -/
def processSimpleRow (st : SimpleLoadState) (cur : Nat) (cells : List String) :
    SimpleLoadState :=
  let trimmed := cells.map goTrimSpace
  let c0 := trimmed.getD 0 ""
  let c1 := trimmed.getD 1 ""
  let c2 := trimmed.getD 2 ""
  let c3 := trimmed.getD 3 ""
  if cells.length < 4 then
    let rd : RowData :=
      { claveCliente := c0, nombre := c1, correo := c2,
        telefonoContacto := c3, hasErrors := true, errorCount := 1 }
    { st with
      invalidRowsData := st.invalidRowsData ++ [rd],
      loadErrors := st.loadErrors ++
        [{ row := cur, column := "general", field := "estructura",
           error := "Fila incompleta", rowData := some rd }] }
  else
    let emptyBad := (c0 == "") || (c1 == "") || (c2 == "") || (c3 == "")
    let claveBad := (c0 != "") &&
      (match goAtoi c0 with
       | some c => decide (c ≤ 0)
       | none => true)
    let telefonoBad := (c3 != "") && (c3.utf8ByteSize != 10)
    let correoBad := (c2 != "") && !goContains c2 "@"
    let clave : Int :=
      if c0 ≠ "" then
        match goAtoi c0 with
        | some c => if c ≤ 0 then 0 else c
        | none => 0
      else 0
    let errorCount := (if emptyBad then 1 else 0) + (if claveBad then 1 else 0) +
      (if telefonoBad then 1 else 0) + (if correoBad then 1 else 0)
    let hasErrors := emptyBad || claveBad || telefonoBad || correoBad
    let rd : RowData :=
      { claveCliente := c0, nombre := c1, correo := c2,
        telefonoContacto := c3, hasErrors := hasErrors, errorCount := errorCount }
    let rowErrors : List RowError :=
      (if emptyBad then
        [{ row := cur, field := "general", error := "Campos vacíos", rowData := some rd }]
       else []) ++
      (if claveBad then
        [{ row := cur, field := "claveCliente", error := "Clave inválida", rowData := some rd }]
       else []) ++
      (if telefonoBad then
        [{ row := cur, field := "telefonoContacto", error := "Teléfono debe tener 10 dígitos",
           rowData := some rd }]
       else []) ++
      (if correoBad then
        [{ row := cur, field := "correo", error := "Correo sin @", rowData := some rd }]
       else [])
    if hasErrors then
      { st with loadErrors := st.loadErrors ++ rowErrors,
                invalidRowsData := st.invalidRowsData ++ [rd] }
    else
      { st with loadErrors := st.loadErrors ++ rowErrors,
                contactos := st.contactos ++
                  [{ claveCliente := clave, nombre := c1, correo := c2,
                     telefonoContacto := c3 }] }

/-- Iterate `processSimpleRow` over the data rows. -/
def loadSimpleAux : SimpleLoadState → Nat → List (List String) → SimpleLoadState
  | st, _, [] => st
  | st, i, cells :: rest => loadSimpleAux (processSimpleRow st (i + 1) cells) (i + 1) rest

/-- The optimized `loadFromExcel` over the rows of the first sheet. -/
def loadSimpleFromExcel (rows : List (List String)) : SimpleLoadState :=
  match rows with
  | [] => { contactos := [], loadErrors := [], invalidRowsData := [] }
  | _header :: dataRows =>
    loadSimpleAux { contactos := [], loadErrors := [], invalidRowsData := [] } 1 dataRows

/-! ## Validation reports (services/contacto_service.go and
src/unnamed/part_004) -/

/-- `GetExcelValidationReport` of the older service iteration
(src/unnamed/part_004, lines 176-201): `totalRows` adds the full error list
length, while `invalidRows` counts distinct error rows. -/
def reportPart004 (contactos : List Contacto) (loadErrors : List RowError) :
    ExcelValidationReport :=
  { totalRows := contactos.length + loadErrors.length,
    validRows := contactos.length,
    invalidRows := ((loadErrors.map (fun e => e.row)).eraseDups).length,
    errors := loadErrors,
    invalidRowsData := [] }

/-- `GetExcelValidationReport` of the newer service iteration
(src/services/contacto_service.go, lines 178-203): counts come from the
invalid-row snapshot list. -/
def reportService (contactos : List Contacto) (loadErrors : List RowError)
    (invalidRowsData : List RowData) : ExcelValidationReport :=
  { totalRows := contactos.length + invalidRowsData.length,
    validRows := contactos.length,
    invalidRows := invalidRowsData.length,
    errors := loadErrors,
    invalidRowsData := invalidRowsData }

/-! ## Helper lemmas: characters, trimming, decimal round-trip -/

lemma isWhitespace_false_of_isDigit {c : Char} (h : c.isDigit = true) :
    c.isWhitespace = false := by
  simp only [Char.isDigit, decide_eq_true_eq, Bool.and_eq_true] at h
  simp only [Char.isWhitespace]
  by_contra hw
  simp only [Bool.not_eq_false, Bool.or_eq_true, beq_iff_eq, decide_eq_true_eq] at hw
  rcases h with ⟨h1, h2⟩
  rcases hw with ((rfl | rfl) | rfl) | rfl <;> revert h1 h2 <;> decide

lemma dropWhile_eq_self_of_all {α : Type} {p : α → Bool} {l : List α}
    (h : ∀ c ∈ l, p c = false) : l.dropWhile p = l := by
  cases l with
  | nil => rfl
  | cons a t => rw [List.dropWhile_cons, h a (by simp)]; simp

lemma trimCharList_eq_self {l : List Char} (h : ∀ c ∈ l, c.isWhitespace = false) :
    trimCharList l = l := by
  unfold trimCharList
  rw [dropWhile_eq_self_of_all h,
    dropWhile_eq_self_of_all (fun c hc => h c (by simpa using hc))]
  exact l.reverse_reverse

lemma goTrimSpace_eq_self {s : String} (h : ∀ c ∈ s.data, c.isWhitespace = false) :
    goTrimSpace s = s := by
  unfold goTrimSpace
  rw [trimCharList_eq_self h]

lemma goTrimSpace_of_all_digits {s : String} (h : s.data.all Char.isDigit = true) :
    goTrimSpace s = s := by
  refine goTrimSpace_eq_self (fun c hc => isWhitespace_false_of_isDigit ?_)
  rw [List.all_eq_true] at h
  exact h c hc

lemma char_digit_isDigit {d : Nat} (h : d < 10) : (Char.ofNat (48 + d)).isDigit = true := by
  interval_cases d <;> decide

lemma digitVal_char {d : Nat} (h : d < 10) : digitVal (Char.ofNat (48 + d)) = d := by
  interval_cases d <;> decide

lemma foldDigits_append_digit (cs : List Char) (c : Char) :
    foldDigits (cs ++ [c]) = foldDigits cs * 10 + digitVal c := by
  simp [foldDigits, List.foldl_append]

lemma parseDigits_eq_some {cs : List Char} (h1 : cs ≠ []) (h2 : cs.all Char.isDigit = true) :
    parseDigits cs = some (foldDigits cs) := by
  unfold parseDigits
  rw [if_neg h1, if_pos h2]

lemma natToChars_spec : ∀ (fuel n : Nat), 1 ≤ n → n ≤ fuel →
    natToChars fuel n ≠ [] ∧ (natToChars fuel n).all Char.isDigit = true ∧
      foldDigits (natToChars fuel n) = n := by
  intro fuel
  induction fuel with
  | zero => intro n h1 h2; omega
  | succ fuel ih =>
    intro n h1 h2
    by_cases h : n < 10
    · refine ⟨by simp [natToChars, h], ?_, ?_⟩
      · simp [natToChars, h, List.all_cons, char_digit_isDigit h]
      · simp [natToChars, h, foldDigits, digitVal_char h]
    · have hd : 1 ≤ n / 10 := by omega
      have hf : n / 10 ≤ fuel := by omega
      obtain ⟨hne, hdig, hfold⟩ := ih (n / 10) hd hf
      have hm : n % 10 < 10 := Nat.mod_lt _ (by norm_num)
      unfold natToChars
      rw [if_neg h]
      refine ⟨by simp, ?_, ?_⟩
      · rw [List.all_append]
        simp [hdig, List.all_cons, char_digit_isDigit hm]
      · rw [foldDigits_append_digit, hfold, digitVal_char hm]
        omega

lemma goItoa_pos_data {k : Int} (h : 0 < k) :
    (goItoa k).data = natToChars k.toNat k.toNat := by
  unfold goItoa
  rw [if_neg (by omega), if_neg (by omega)]

lemma pow63 : (2 : Int) ^ 63 = 9223372036854775808 := by norm_num

lemma inInt64Range_of_pos {k : Int} (h1 : 0 < k) (h2 : k ≤ int64Max) :
    inInt64Range k = true := by
  unfold int64Max at h2
  unfold inInt64Range int64Min int64Max
  rw [decide_eq_true_eq]
  rw [pow63] at h2 ⊢
  omega

lemma goAtoi_goItoa {k : Int} (h1 : 0 < k) (h2 : k ≤ int64Max) :
    goAtoi (goItoa k) = some k := by
  have hk1 : 1 ≤ k.toNat := by omega
  obtain ⟨hne, hdig, hfold⟩ := natToChars_spec k.toNat k.toNat hk1 le_rfl
  obtain ⟨c, rest, hcr⟩ : ∃ c rest, natToChars k.toNat k.toNat = c :: rest := by
    cases hx : natToChars k.toNat k.toNat with
    | nil => exact absurd hx hne
    | cons c rest => exact ⟨c, rest, rfl⟩
  have hcd : c.isDigit = true := by
    rw [hcr, List.all_cons, Bool.and_eq_true] at hdig
    exact hdig.1
  have hplus : ¬ c = '+' := by rintro rfl; exact absurd hcd (by decide)
  have hminus : ¬ c = '-' := by rintro rfl; exact absurd hcd (by decide)
  unfold goAtoi
  rw [goItoa_pos_data h1, hcr]
  simp only [if_neg hplus, if_neg hminus]
  rw [← hcr, parseDigits_eq_some hne hdig, hfold]
  simp [Option.bind_eq_bind, Int.toNat_of_nonneg h1.le, inInt64Range_of_pos h1 h2]

lemma goItoa_data_all_digits {k : Int} (h : 0 < k) :
    (goItoa k).data.all Char.isDigit = true := by
  rw [goItoa_pos_data h]
  exact (natToChars_spec k.toNat k.toNat (by omega) le_rfl).2.1

/-! ## Helper lemmas: row errors of the validated loader -/

lemma mem_ite_singleton {p : Prop} [Decidable p] {x e : RowError}
    (h : e ∈ (if p then [x] else [])) : e = x := by
  split at h
  · simpa using h
  · simp at h

lemma emptyFieldErrors_row {cur : Nat} {a b c d : String} :
    ∀ e ∈ emptyFieldErrors cur a b c d, e.row = cur := by
  intro e he
  unfold emptyFieldErrors at he
  simp only [List.mem_append] at he
  rcases he with ((he | he) | he) | he <;> rw [mem_ite_singleton he]

lemma fieldCheckErrors_row {cur : Nat} {a c d : String} {k : Int} {cs : List Contacto} :
    ∀ e ∈ fieldCheckErrors cur a c d k cs, e.row = cur := by
  intro e he
  unfold fieldCheckErrors at he
  simp only [List.mem_append] at he
  rcases he with (((he | he) | he) | he) | he <;> rw [mem_ite_singleton he] <;> rfl

lemma any_row_false {l : List RowError} {cur : Nat} (h : ∀ e ∈ l, e.row ≠ cur) :
    l.any (fun e => e.row == cur) = false := by
  rw [List.any_eq_false]
  intro e he
  simpa using h e he

lemma any_row_of_rows_eq {l : List RowError} {cur : Nat} (h : ∀ e ∈ l, e.row = cur) :
    l.any (fun e => e.row == cur) = !l.isEmpty := by
  cases l with
  | nil => rfl
  | cons e t => simp [List.any_cons, h e (by simp)]

/-! ## Concrete fixtures used by the closed theorems -/

/-- A valid contact used as a concrete fixture. -/
def anaC : Contacto :=
  { claveCliente := 1, nombre := "Ana", correo := "ana@x.com", telefonoContacto := "5551234567" }

/-- A second valid contact whose email contains the first one's as a proper substring. -/
def betoC : Contacto :=
  { claveCliente := 2, nombre := "Beto", correo := "bana@x.com", telefonoContacto := "5550000000" }

/-- Optimized-repository state as the constructor leaves it for a small
collection: nil indices, empty cache, optimization on, cache capacity 500. -/
def optRepoNoIndex (contactos : List Contacto) : OptRepo :=
  { contactos := contactos, loadErrors := [], invalidRowsData := [],
    indiceClaveCliente := none, indiceCorreo := none, searchCache := [],
    useOptimization := true, cacheMaxSize := 500 }

/-- Optimized-repository state after `buildBasicIndices` has run (the
above-threshold configuration), with an empty cache. -/
def optRepoIndexed (contactos : List Contacto) : OptRepo :=
  { contactos := contactos, loadErrors := [], invalidRowsData := [],
    indiceClaveCliente := some (buildBasicIndices contactos).1,
    indiceCorreo := some (buildBasicIndices contactos).2, searchCache := [],
    useOptimization := true, cacheMaxSize := 500 }

/-- Criteria asking for key 1 and a name that matches nobody. -/
def critKeyAndName : ContactoDTO :=
  { claveCliente := "1", nombre := "zzz", correo := "", telefono := "" }

/-- Criteria asking for an email that is a substring of both fixture emails. -/
def critMail : ContactoDTO :=
  { claveCliente := "", nombre := "", correo := "ana@x.com", telefono := "" }

/-! ## C1 -/

/-- C1: the indexed search path of the optimized repository does NOT return the
same record set as the un-indexed linear scan.  With both indices built and an
empty cache: (i) the key fast path ignores every other criterion, so criteria
(key 1, name "zzz") return Ana although the linear scan returns nothing; (ii)
the email fast path is an exact lowercase lookup, so criteria (email
"ana\x40x.com") return only Ana although the linear scan also returns Beto,
whose email contains it as a substring. -/
theorem optSearch_fast_paths_diverge_from_linear_scan :
    ((optSearch (optRepoIndexed [anaC]) critKeyAndName).1 = [anaC] ∧
      searchBasic [anaC] critKeyAndName = []) ∧
    ((optSearch (optRepoIndexed [anaC, betoC]) critMail).1 = [anaC] ∧
      searchBasic [anaC, betoC] critMail = [anaC, betoC]) := by
  exact ⟨⟨by decide, by decide⟩, ⟨by decide, by decide⟩⟩

/-! ## C6 -/

/-- Helper: `existsByID` in terms of `find?`. -/
lemma existsByID_eq (contactos : List Contacto) (k : Int) :
    existsByID contactos k = ((contactos.find? (fun c => c.claveCliente == k)).isSome, none) := by
  unfold existsByID getByID
  cases contactos.find? (fun c => c.claveCliente == k) <;> rfl

/-- C6: a readable sheet never makes the load return an error (row-level
failures are returned as data); only the unopenable-file and no-sheets inputs
produce errors, and in both cases the collection is left untouched (the
previous collection for an existing repository, the empty collection for a
fresh one), so the store stays queryable. -/
theorem load_fails_only_for_file_level_problems :
    (∀ (r : Repo) (rows : List (List String)),
        (repoLoadFromExcel r (.sheet rows)).2 = .ok (loadFromExcel rows).loadErrors ∧
        (repoLoadFromExcel r (.sheet rows)).1.contactos = (loadFromExcel rows).contactos) ∧
    (∀ r : Repo,
        (repoLoadFromExcel r .openError).2 = .error "error abriendo archivo Excel" ∧
        (repoLoadFromExcel r .noSheets).2 = .error "el archivo Excel no tiene hojas" ∧
        (repoLoadFromExcel r .openError).1 = r ∧
        (repoLoadFromExcel r .noSheets).1 = r ∧
        (reloadExcel r .openError).1.contactos = r.contactos ∧
        (reloadExcel r .noSheets).1.contactos = r.contactos) ∧
    (newContactoRepository .openError).contactos = [] ∧
    (newContactoRepository .noSheets).contactos = [] :=
  ⟨fun _ _ => ⟨rfl, rfl⟩, fun _ => ⟨rfl, rfl, rfl, rfl, rfl, rfl⟩, rfl, rfl⟩

/-! ## C10 -/

/-- C10: `ExistsByID` is total and never returns a non-nil error: its error
component is always `none`, its boolean is true exactly when some record in
the collection carries the key; consequently `Create` only ever takes its
conflict branch or its append-and-save branch, never the branch propagating
an `ExistsByID` failure. -/
theorem existsByID_total_and_create_error_branch_unreachable :
    (∀ (contactos : List Contacto) (k : Int),
        (existsByID contactos k).2 = none ∧
        ((existsByID contactos k).1 = true ↔ ∃ c ∈ contactos, c.claveCliente = k)) ∧
    (∀ (r : Repo) (c : Contacto),
        createBasic r c =
          if (existsByID r.contactos c.claveCliente).1 then
            (r, none, some ("contacto con clave " ++ toString c.claveCliente ++ " ya existe"))
          else
            ({ contactos := r.contactos ++ [c], loadErrors := r.loadErrors },
              some (saveToExcel (r.contactos ++ [c])), none)) := by
  constructor
  · intro contactos k
    rw [existsByID_eq]
    refine ⟨rfl, ?_⟩
    rw [List.find?_isSome]
    constructor
    · rintro ⟨c, hc, hp⟩
      exact ⟨c, hc, by simpa using hp⟩
    · rintro ⟨c, hc, hp⟩
      exact ⟨c, hc, by simpa using hp⟩
  · intro r c
    cases h : r.contactos.find? (fun x => x.claveCliente == c.claveCliente) <;>
      simp [createBasic, existsByID_eq, h]

/-! ## C7 -/

/-- Spec-side search predicate, following the spec's words: every provided
(non-empty) filter must hold — exact key match after integer parsing,
case-insensitive substring match on name and email, case-sensitive substring
match on phone. -/
def searchSpecMatch (criteria : ContactoDTO) (c : Contacto) : Prop :=
  (criteria.claveCliente ≠ "" →
    ∃ k, goAtoi criteria.claveCliente = some k ∧ c.claveCliente = k) ∧
  (criteria.nombre ≠ "" →
    List.IsInfix (goToLower criteria.nombre).data (goToLower c.nombre).data) ∧
  (criteria.correo ≠ "" →
    List.IsInfix (goToLower criteria.correo).data (goToLower c.correo).data) ∧
  (criteria.telefono ≠ "" →
    List.IsInfix criteria.telefono.data c.telefonoContacto.data)

/-- Helper: the Go `match` flag agrees with the spec-side predicate. -/
lemma searchMatch_eq_true_iff {criteria : ContactoDTO} {c : Contacto} :
    searchMatch criteria c = true ↔ searchSpecMatch criteria c := by
  unfold searchMatch searchSpecMatch goContains
  cases h : goAtoi criteria.claveCliente <;>
    simp [h, Bool.and_eq_true, Bool.or_eq_true, beq_iff_eq, decide_eq_true_eq] <;>
    tauto

/-- C7: membership in the linear-scan `Search` result is exactly membership in
the collection plus satisfaction of every provided filter; in particular a
non-numeric key criterion yields zero matches on every collection. -/
theorem searchBasic_membership_characterization :
    (∀ (contactos : List Contacto) (criteria : ContactoDTO) (c : Contacto),
        c ∈ searchBasic contactos criteria ↔ c ∈ contactos ∧ searchSpecMatch criteria c) ∧
    (∀ (contactos : List Contacto) (criteria : ContactoDTO),
        criteria.claveCliente ≠ "" → goAtoi criteria.claveCliente = none →
        searchBasic contactos criteria = []) := by
  constructor
  · intro contactos criteria c
    unfold searchBasic
    rw [List.mem_filter, searchMatch_eq_true_iff]
  · intro contactos criteria hne hnone
    unfold searchBasic
    rw [List.filter_eq_nil_iff]
    intro c _
    unfold searchMatch
    rw [hnone]
    simp [hne]

/-- C7 witness: the characterization applied at a concrete collection and a
concrete non-numeric key criterion. -/
theorem searchBasic_membership_characterization_witness :
    searchBasic [anaC] { claveCliente := "x1", nombre := "", correo := "", telefono := "" } = [] :=
  searchBasic_membership_characterization.2 [anaC]
    { claveCliente := "x1", nombre := "", correo := "", telefono := "" }
    (by decide) (by decide)

/-! ## C2 -/

/-- Helper: one validated-loader step either only appends errors, all carrying
this row's number, or appends one record whose key passed the duplicate scan
over the records accepted so far. -/
lemma processDataRow_cases (st : LoadState) (cur : Nat) (cells : List String) :
    (∃ newErrs : List RowError, (∀ e ∈ newErrs, e.row = cur) ∧
        processDataRow st cur cells = { st with loadErrors := st.loadErrors ++ newErrs }) ∨
    (∃ c : Contacto, st.contactos.any (fun x => x.claveCliente == c.claveCliente) = false ∧
        (processDataRow st cur cells).contactos = st.contactos ++ [c]) := by
  unfold processDataRow
  split
  · split
    · exact Or.inl ⟨[structuralError cur], by simp [structuralError], rfl⟩
    · exact Or.inl ⟨[], by simp, by simp⟩
  · unfold processFullRow
    split
    · exact Or.inl ⟨emptyFieldErrors cur _ _ _ _, emptyFieldErrors_row, rfl⟩
    · split
      · exact Or.inl ⟨[claveFormatError cur _], by simp [claveFormatError], rfl⟩
      · rename_i clave heq
        split
        · exact Or.inl ⟨fieldCheckErrors cur _ _ _ clave st.contactos, fieldCheckErrors_row, rfl⟩
        · rename_i hany
          refine Or.inr ⟨_, ?_, rfl⟩
          simp only [Bool.not_eq_true, List.any_append, Bool.or_eq_false_iff] at hany
          show (st.contactos.any fun x => x.claveCliente == clave) = false
          by_contra hdup
          rw [Bool.not_eq_false] at hdup
          have hmem : (dupKeyError cur (goTrimSpace (cells.getD 0 "")) clave) ∈
              fieldCheckErrors cur (goTrimSpace (cells.getD 0 ""))
                (goTrimSpace (cells.getD 2 "")) (goTrimSpace (cells.getD 3 ""))
                clave st.contactos := by
            unfold fieldCheckErrors
            simp only [List.mem_append]
            right
            rw [if_pos hdup]
            simp
          have h2 := hany.2
          rw [List.any_eq_false] at h2
          exact h2 _ hmem (by simp [dupKeyError])

/-- Helper: each validated-loader step preserves distinctness of keys. -/
lemma processDataRow_nodup {st : LoadState} {cur : Nat} {cells : List String}
    (hnd : (st.contactos.map (fun c => c.claveCliente)).Nodup) :
    ((processDataRow st cur cells).contactos.map (fun c => c.claveCliente)).Nodup := by
  rcases processDataRow_cases st cur cells with ⟨newErrs, -, heq⟩ | ⟨c, hany, heq⟩
  · rw [heq]
    exact hnd
  · rw [heq, List.map_append, List.nodup_append]
    refine ⟨hnd, by simp, ?_⟩
    rw [List.any_eq_false] at hany
    intro a ha hb
    simp only [List.map_cons, List.map_nil, List.mem_singleton] at hb
    subst hb
    rw [List.mem_map] at ha
    obtain ⟨x, hx, hxa⟩ := ha
    exact absurd (by simpa using hxa) (by simpa using hany x hx)

/-- Helper: distinctness of keys is an invariant of the whole iteration. -/
lemma loadAux_nodup : ∀ (rows : List (List String)) (st : LoadState) (i : Nat),
    (st.contactos.map (fun c => c.claveCliente)).Nodup →
    ((loadAux st i rows).contactos.map (fun c => c.claveCliente)).Nodup := by
  intro rows
  induction rows with
  | nil => intro st i h; exact h
  | cons r t ih => intro st i h; exact ih _ _ (processDataRow_nodup h)

/-- C2 counterexample rows: a header and two otherwise valid rows sharing key 1. -/
def dupRows : List (List String) :=
  [["ClaveCliente", "Nombre", "Correo", "TelefonoContacto"],
   ["1", "Ana", "ana@x.com", "5551234567"],
   ["1", "Bob", "bob@x.com", "5550000000"]]

/-- C2 counterexample: the optimized loader variant
(`SimpleOptimizedContactoRepository.loadFromExcel`) has no duplicate-key check:
both rows with key 1 become records and no RowError at all is recorded, so the
uniqueness claim fails for that loader variant. -/
theorem loadSimple_keeps_duplicate_keys :
    ((loadSimpleFromExcel dupRows).contactos.map (fun c => c.claveCliente)) = [1, 1] ∧
    (loadSimpleFromExcel dupRows).loadErrors = [] :=
  ⟨by decide, by decide⟩

/-- C2 (amended): uniqueness holds for the validated loader
(`ContactoRepository.loadFromExcel`, lines 178-409) — after any load no two
records share a key, and a row whose fields all pass the other checks but
whose key was already accepted is rejected with exactly the duplicate-key
RowError and adds no record.  The optimized loader variant lacks the
duplicate-key check entirely (see the counterexample). -/
theorem loadFromExcel_unique_keys_and_duplicate_rejection :
    (∀ rows : List (List String),
        ((loadFromExcel rows).contactos.map (fun c => c.claveCliente)).Nodup) ∧
    (∀ (st : LoadState) (cur : Nat) (a b c d : String) (k : Int),
        goTrimSpace a ≠ "" → goTrimSpace b ≠ "" → goTrimSpace c ≠ "" → goTrimSpace d ≠ "" →
        goAtoi (goTrimSpace a) = some k → 0 < k →
        (goTrimSpace d).utf8ByteSize = 10 →
        (goTrimSpace d).data.any (fun ch => ch < '0' || '9' < ch) = false →
        goContains (goTrimSpace c) "@" = true →
        st.contactos.any (fun x => x.claveCliente == k) = true →
        processDataRow st cur [a, b, c, d] =
          { st with loadErrors := st.loadErrors ++ [dupKeyError cur (goTrimSpace a) k] }) := by
  constructor
  · intro rows
    cases rows with
    | nil => simp [loadFromExcel]
    | cons hd t => exact loadAux_nodup t _ 1 (by simp)
  · intro st cur a b c d k ha hb hc hd hk hpos hlen hdig hmail hdup
    have hefe : emptyFieldErrors cur (goTrimSpace a) (goTrimSpace b) (goTrimSpace c)
        (goTrimSpace d) = [] := by
      unfold emptyFieldErrors
      rw [if_neg ha, if_neg hb, if_neg hc, if_neg hd]
      simp
    have hfce : fieldCheckErrors cur (goTrimSpace a) (goTrimSpace c) (goTrimSpace d) k
        st.contactos = [dupKeyError cur (goTrimSpace a) k] := by
      unfold fieldCheckErrors
      rw [if_neg (by omega), if_neg (by simp [hlen]), if_neg (by simp [hdig]),
        if_neg (by simp [hmail]), if_pos hdup]
      simp
    unfold processDataRow
    rw [if_neg (by simp)]
    show processFullRow st cur (goTrimSpace a) (goTrimSpace b) (goTrimSpace c) (goTrimSpace d) = _
    unfold processFullRow
    rw [hefe]
    simp only [List.length_nil, gt_iff_lt, lt_self_iff_false, if_false]
    rw [hk]
    show (if (st.loadErrors ++ fieldCheckErrors cur (goTrimSpace a) (goTrimSpace c)
        (goTrimSpace d) k st.contactos).any (fun e => e.row == cur) = true then _ else _) = _
    rw [hfce, if_pos (by rw [List.any_append]; simp [dupKeyError])]

/-- C2 witness: the duplicate-rejection part applied at a concrete state with
one accepted record of key 1 and a second otherwise-valid row with key 1. -/
theorem loadFromExcel_unique_keys_witness :
    processDataRow { contactos := [anaC], loadErrors := [] } 3
        ["1", "Bob", "bob@x.com", "5550000000"] =
      { contactos := [anaC], loadErrors := [dupKeyError 3 (goTrimSpace "1") 1] } :=
  loadFromExcel_unique_keys_and_duplicate_rejection.2
    { contactos := [anaC], loadErrors := [] } 3 "1" "Bob" "bob@x.com" "5550000000" 1
    (by decide) (by decide) (by decide) (by decide) (by decide) (by decide)
    (by decide) (by decide) (by decide) (by decide)

/-! ## C5 -/

/-- Helper: every data row handled by the optimized loader lands in exactly
one of the record collection or the invalid-row snapshot list. -/
lemma processSimpleRow_count (st : SimpleLoadState) (cur : Nat) (cells : List String) :
    (processSimpleRow st cur cells).contactos.length +
      (processSimpleRow st cur cells).invalidRowsData.length =
      st.contactos.length + st.invalidRowsData.length + 1 := by
  simp only [processSimpleRow]
  split_ifs <;> simp <;> omega

/-- Helper: the optimized loader processes each data row into exactly one
counted bucket. -/
lemma loadSimpleAux_count : ∀ (rows : List (List String)) (st : SimpleLoadState) (i : Nat),
    (loadSimpleAux st i rows).contactos.length +
      (loadSimpleAux st i rows).invalidRowsData.length =
      st.contactos.length + st.invalidRowsData.length + rows.length := by
  intro rows
  induction rows with
  | nil => intro st i; simp [loadSimpleAux]
  | cons r t ih =>
    intro st i
    simp only [loadSimpleAux]
    rw [ih, processSimpleRow_count]
    simp only [List.length_cons]
    omega

/-- C5 counterexample rows: one valid data row and one invalid data row whose
phone fails two checks, so it accumulates two RowErrors. -/
def twoErrorRows : List (List String) :=
  [["ClaveCliente", "Nombre", "Correo", "TelefonoContacto"],
   ["1", "Ana", "ana@x.com", "5551234567"],
   ["2", "Bob", "bob@x.com", "12a"]]

/-- The part_004 report over that load. -/
def twoErrorReport : ExcelValidationReport :=
  reportPart004 (loadFromExcel twoErrorRows).contactos (loadFromExcel twoErrorRows).loadErrors

/-- C5 counterexample: in the part_004 service variant, one invalid row with
two RowErrors breaks the accounting — the report says totalRows 3 although
only 2 data rows were processed, and validRows + invalidRows is 2, not 3. -/
theorem reportPart004_accounting_counterexample :
    twoErrorReport.totalRows = 3 ∧
    twoErrorReport.validRows + twoErrorReport.invalidRows = 2 :=
  ⟨by decide, by decide⟩

/-- C5 (amended): the accounting identity holds for the newer service variant,
whose report is built from one snapshot per invalid row: validRows +
invalidRows = totalRows always, and over the optimized loader (the variant
that produces such snapshots) totalRows equals the number of data rows
processed.  The part_004 variant instead adds the RowError count into
totalRows, so its identity fails whenever an invalid row accumulates more than
one error (see the counterexample). -/
theorem reportService_row_accounting :
    (∀ (contactos : List Contacto) (loadErrors : List RowError)
        (invalidRowsData : List RowData),
        (reportService contactos loadErrors invalidRowsData).validRows +
          (reportService contactos loadErrors invalidRowsData).invalidRows =
          (reportService contactos loadErrors invalidRowsData).totalRows) ∧
    (∀ rows : List (List String),
        (reportService (loadSimpleFromExcel rows).contactos
            (loadSimpleFromExcel rows).loadErrors
            (loadSimpleFromExcel rows).invalidRowsData).totalRows = (rows.drop 1).length) := by
  constructor
  · intro contactos loadErrors invalidRowsData
    rfl
  · intro rows
    cases rows with
    | nil => rfl
    | cons hd t =>
      have h := loadSimpleAux_count t
        { contactos := [], loadErrors := [], invalidRowsData := [] } 1
      simpa [reportService, loadSimpleFromExcel] using h

/-! ## C9 -/

/-- The snapshot the optimized loader records for a row with fewer than 4
cells: whatever trimmed partial values exist, `hasErrors`, `errorCount` 1. -/
def shortRowSnapshot (cells : List String) : RowData :=
  { claveCliente := (cells.map goTrimSpace).getD 0 "",
    nombre := (cells.map goTrimSpace).getD 1 "",
    correo := (cells.map goTrimSpace).getD 2 "",
    telefonoContacto := (cells.map goTrimSpace).getD 3 "",
    hasErrors := true, errorCount := 1 }

/-- C9 counterexample rows: the only data row is a single fully blank cell. -/
def blankShortRows : List (List String) :=
  [["ClaveCliente", "Nombre", "Correo", "TelefonoContacto"], [""]]

/-- C9 counterexample: a fully blank short row is skipped silently by the
validated loader, but the optimized loader (also cited by the claim) still
emits a structural RowError for it, so the blank-skip half of the claim fails
there. -/
theorem loadSimple_blank_short_row_not_skipped :
    (loadSimpleFromExcel blankShortRows).loadErrors.length = 1 ∧
    (loadFromExcel blankShortRows).loadErrors = [] :=
  ⟨by decide, by decide⟩

/-- C9 (amended): in the validated loader a short row with some non-blank cell
produces exactly one structural RowError (column "general", field
"estructura") and no record, and a fully blank short row is skipped silently;
the optimized loader instead records one "Fila incompleta" structural RowError
plus a snapshot with errorCount 1 for EVERY short row, blank or not, and never
a record. -/
theorem short_row_structural_error_behavior :
    (∀ (st : LoadState) (cur : Nat) (cells : List String),
        cells.length < 4 → cells.any (fun c => goTrimSpace c ≠ "") = true →
        processDataRow st cur cells =
          { st with loadErrors := st.loadErrors ++ [structuralError cur] }) ∧
    (∀ (st : LoadState) (cur : Nat) (cells : List String),
        cells.length < 4 → (∀ c ∈ cells, goTrimSpace c = "") →
        processDataRow st cur cells = st) ∧
    (∀ (st : SimpleLoadState) (cur : Nat) (cells : List String),
        cells.length < 4 →
        processSimpleRow st cur cells =
          { st with
            invalidRowsData := st.invalidRowsData ++ [shortRowSnapshot cells],
            loadErrors := st.loadErrors ++
              [{ row := cur, column := "general", field := "estructura",
                 error := "Fila incompleta", rowData := some (shortRowSnapshot cells) }] }) := by
  refine ⟨fun st cur cells hlen hc => ?_, fun st cur cells hlen hb => ?_,
    fun st cur cells hlen => ?_⟩
  · unfold processDataRow
    rw [if_pos hlen, if_pos hc]
  · unfold processDataRow
    rw [if_pos hlen, if_neg ?_]
    simp only [List.any_eq_true, decide_eq_true_eq, not_exists, not_and]
    intro c hc
    simp [hb c hc]
  · unfold processSimpleRow shortRowSnapshot
    rw [if_pos hlen]

/-- C9 witness: the three behaviors at concrete short rows — a non-blank
1-cell row and a blank 1-cell row for the validated loader, and a blank 1-cell
row for the optimized loader. -/
theorem short_row_structural_error_witness :
    processDataRow { contactos := [], loadErrors := [] } 2 ["x"] =
      { contactos := [], loadErrors := [structuralError 2] } ∧
    processDataRow { contactos := [], loadErrors := [] } 2 [""] =
      { contactos := [], loadErrors := [] } ∧
    processSimpleRow { contactos := [], loadErrors := [], invalidRowsData := [] } 2 [""] =
      { contactos := [], invalidRowsData := [shortRowSnapshot [""]],
        loadErrors :=
          [{ row := 2, column := "general", field := "estructura",
             error := "Fila incompleta", rowData := some (shortRowSnapshot [""]) }] } :=
  ⟨short_row_structural_error_behavior.1 _ 2 ["x"] (by decide) (by decide),
    short_row_structural_error_behavior.2.1 _ 2 [""] (by decide) (by decide),
    short_row_structural_error_behavior.2.2 _ 2 [""] (by decide)⟩

/-! ## C4 -/

/-- A contact whose key collides with the fixture contact `anaC`. -/
def dupC : Contacto :=
  { claveCliente := 1, nombre := "Dup", correo := "d@x.com", telefonoContacto := "5550000001" }

/-- C4 counterexample: in the optimized repository with the small-collection
configuration (nil key index, as the constructor leaves it at or below the
100-record threshold), `Create` runs no duplicate check at all: creating key 1
again returns no error, appends a second record with key 1, and writes the
file — refuting "for every collection size". -/
theorem optCreate_nil_index_counterexample :
    (optCreate (optRepoNoIndex [anaC]) dupC).2.2 = none ∧
    ((optCreate (optRepoNoIndex [anaC]) dupC).1.contactos.map (fun c => c.claveCliente)
      = [1, 1]) ∧
    (optCreate (optRepoNoIndex [anaC]) dupC).2.1.isSome = true :=
  ⟨by decide, by decide, by decide⟩

/-- C4 (amended): create-with-existing-key fails with the conflict error,
leaves the collection unchanged and writes nothing in the basic repository for
every collection, and in the optimized repository whenever the key index is
built and contains the key; with a nil (or key-missing) index the optimized
create appends and saves — in particular, below the index threshold a
duplicate key is silently accepted (see the counterexample).  When the key is
absent, both repositories append the record and trigger a full save. -/
theorem create_conflict_behavior :
    (∀ (r : Repo) (c : Contacto),
        (∃ x ∈ r.contactos, x.claveCliente = c.claveCliente) →
        createBasic r c = (r, none,
          some ("contacto con clave " ++ toString c.claveCliente ++ " ya existe"))) ∧
    (∀ (r : Repo) (c : Contacto),
        (∀ x ∈ r.contactos, x.claveCliente ≠ c.claveCliente) →
        createBasic r c = ({ contactos := r.contactos ++ [c], loadErrors := r.loadErrors },
          some (saveToExcel (r.contactos ++ [c])), none)) ∧
    (∀ (r : OptRepo) (c : Contacto) (idx : List (Int × Contacto)),
        r.indiceClaveCliente = some idx → (mapLookup idx c.claveCliente).isSome = true →
        optCreate r c = (r, none,
          some ("contacto con clave " ++ toString c.claveCliente ++ " ya existe"))) ∧
    (∀ (r : OptRepo) (c : Contacto),
        r.indiceClaveCliente.elim True (fun idx => mapLookup idx c.claveCliente = none) →
        ((optCreate r c).1.contactos = r.contactos ++ [c] ∧
          (optCreate r c).2.1 = some (saveToExcel (r.contactos ++ [c])) ∧
          (optCreate r c).2.2 = none)) := by
  refine ⟨fun r c hex => ?_, fun r c hnone => ?_, fun r c idx hidx hsome => ?_,
    fun r c hmiss => ?_⟩
  · cases h : r.contactos.find? (fun x => x.claveCliente == c.claveCliente) with
    | none =>
      rw [List.find?_eq_none] at h
      obtain ⟨x, hx, he⟩ := hex
      exact absurd (by simpa using he) (by simpa using h x hx)
    | some x => simp [createBasic, existsByID_eq, h]
  · have h : r.contactos.find? (fun x => x.claveCliente == c.claveCliente) = none := by
      rw [List.find?_eq_none]
      intro x hx
      simpa using hnone x hx
    simp [createBasic, existsByID_eq, h]
  · simp [optCreate, hidx, hsome]
  · cases hidx : r.indiceClaveCliente with
    | none => simp [optCreate, hidx, clearCache]; split_ifs <;> simp
    | some idx =>
      rw [hidx] at hmiss
      simp only [Option.elim] at hmiss
      simp [optCreate, hidx, hmiss, clearCache]
      split_ifs <;> simp

/-- C4 witness: both conflict paths and both success paths at concrete inputs:
the basic repository holding Ana, and the optimized repository holding Ana
with and without its key index built. -/
theorem create_conflict_behavior_witness :
    createBasic { contactos := [anaC], loadErrors := [] } dupC =
      ({ contactos := [anaC], loadErrors := [] }, none,
        some ("contacto con clave " ++ toString dupC.claveCliente ++ " ya existe")) ∧
    createBasic { contactos := [], loadErrors := [] } anaC =
      ({ contactos := [anaC], loadErrors := [] },
        some (saveToExcel [anaC]), none) ∧
    optCreate (optRepoIndexed [anaC]) dupC =
      (optRepoIndexed [anaC], none,
        some ("contacto con clave " ++ toString dupC.claveCliente ++ " ya existe")) ∧
    ((optCreate (optRepoNoIndex [anaC]) dupC).1.contactos = [anaC, dupC] ∧
      (optCreate (optRepoNoIndex [anaC]) dupC).2.1 = some (saveToExcel [anaC, dupC]) ∧
      (optCreate (optRepoNoIndex [anaC]) dupC).2.2 = none) :=
  ⟨create_conflict_behavior.1 _ dupC ⟨anaC, by decide, by decide⟩,
    create_conflict_behavior.2.1 _ anaC (by decide),
    create_conflict_behavior.2.2.1 _ dupC (buildBasicIndices [anaC]).1 rfl (by decide),
    create_conflict_behavior.2.2.2 (optRepoNoIndex [anaC]) dupC trivial⟩

/-! ## C3 -/

/-- C3 counterexample rows: one data row with an empty name AND a phone that
fails the length check. -/
def emptyNameBadPhoneRows : List (List String) :=
  [["ClaveCliente", "Nombre", "Correo", "TelefonoContacto"],
   ["1", "", "a@x.com", "123"]]

/-- C3 counterexample: the row receives ONLY its empty-name error; no
telefonoContacto error is recorded although the phone fails the length check,
because the parser short-circuits after the empty-field stage — refuting
"short-circuiting only on the structural wrong-column-count failure". -/
theorem emptyName_shortCircuits_phone_check :
    ((loadFromExcel emptyNameBadPhoneRows).loadErrors.map (fun e => e.field)) = ["nombre"] ∧
    (∀ e ∈ (loadFromExcel emptyNameBadPhoneRows).loadErrors, e.field ≠ "telefonoContacto") :=
  ⟨by decide, by decide⟩

/-- C3 (amended): for a data row with at least 4 cells the parser short-circuits
at two more points than the claim allows: (i) if any trimmed field is empty,
the row collects exactly its empty-field errors (all four checked
independently, up to 4) and nothing else; (ii) if no field is empty but the
key does not parse as an integer, the row collects exactly the format error;
(iii) only when all four fields are non-empty and the key parses do the five
remaining checks (key > 0, phone length, phone digits, email \x40, duplicate
key) run — they accumulate independently as `fieldCheckErrors`, and the record
is added exactly when that list is empty. -/
theorem row_error_accumulation_behavior :
    (∀ (st : LoadState) (cur : Nat) (cells : List String) (a b c d : String),
        4 ≤ cells.length →
        goTrimSpace (cells.getD 0 "") = a → goTrimSpace (cells.getD 1 "") = b →
        goTrimSpace (cells.getD 2 "") = c → goTrimSpace (cells.getD 3 "") = d →
        emptyFieldErrors cur a b c d ≠ [] →
        processDataRow st cur cells =
          { st with loadErrors := st.loadErrors ++ emptyFieldErrors cur a b c d }) ∧
    (∀ (st : LoadState) (cur : Nat) (cells : List String) (a b c d : String),
        4 ≤ cells.length →
        goTrimSpace (cells.getD 0 "") = a → goTrimSpace (cells.getD 1 "") = b →
        goTrimSpace (cells.getD 2 "") = c → goTrimSpace (cells.getD 3 "") = d →
        emptyFieldErrors cur a b c d = [] → goAtoi a = none →
        processDataRow st cur cells =
          { st with loadErrors := st.loadErrors ++ [claveFormatError cur a] }) ∧
    (∀ (st : LoadState) (cur : Nat) (cells : List String) (a b c d : String) (k : Int),
        4 ≤ cells.length →
        goTrimSpace (cells.getD 0 "") = a → goTrimSpace (cells.getD 1 "") = b →
        goTrimSpace (cells.getD 2 "") = c → goTrimSpace (cells.getD 3 "") = d →
        emptyFieldErrors cur a b c d = [] → goAtoi a = some k →
        (∀ e ∈ st.loadErrors, e.row ≠ cur) →
        (processDataRow st cur cells).loadErrors =
          st.loadErrors ++ fieldCheckErrors cur a c d k st.contactos ∧
        (processDataRow st cur cells).contactos =
          (if fieldCheckErrors cur a c d k st.contactos = [] then
            st.contactos ++
              [{ claveCliente := k, nombre := b, correo := c, telefonoContacto := d }]
          else st.contactos)) := by
  refine ⟨fun st cur cells a b c d hlen ha hb hc hd hne => ?_,
    fun st cur cells a b c d hlen ha hb hc hd hempty hnone => ?_,
    fun st cur cells a b c d k hlen ha hb hc hd hempty hk hfresh => ?_⟩
  · unfold processDataRow
    rw [if_neg (by omega), ha, hb, hc, hd]
    unfold processFullRow
    rw [if_pos (by simpa [List.length_pos] using hne)]
  · unfold processDataRow
    rw [if_neg (by omega), ha, hb, hc, hd]
    unfold processFullRow
    rw [hempty]
    simp only [List.length_nil, gt_iff_lt, lt_self_iff_false, if_false]
    rw [hnone]
  · unfold processDataRow
    rw [if_neg (by omega), ha, hb, hc, hd]
    unfold processFullRow
    rw [hempty]
    simp only [List.length_nil, gt_iff_lt, lt_self_iff_false, if_false]
    rw [hk]
    dsimp only
    by_cases hfc : fieldCheckErrors cur a c d k st.contactos = []
    · rw [if_neg ?_, if_pos hfc]
      · exact ⟨rfl, rfl⟩
      · rw [List.any_append, any_row_false hfresh, any_row_of_rows_eq fieldCheckErrors_row,
          hfc]
        simp
    · rw [if_pos ?_, if_neg hfc]
      · exact ⟨rfl, rfl⟩
      · rw [List.any_append, any_row_false hfresh, any_row_of_rows_eq fieldCheckErrors_row]
        simpa [List.isEmpty_iff] using hfc

/-- C3 witness: the three behaviors at concrete rows — empty name with a bad
phone (only the empty-name error), a non-numeric key (only the format error),
and a fully valid row (no errors, record accepted). -/
theorem row_error_accumulation_witness :
    processDataRow { contactos := [], loadErrors := [] } 2 ["1", "", "a@x.com", "123"] =
      { contactos := [], loadErrors := emptyFieldErrors 2 "1" "" "a@x.com" "123" } ∧
    processDataRow { contactos := [], loadErrors := [] } 2 ["x1", "B", "b@x.com", "5550000000"] =
      { contactos := [], loadErrors := [claveFormatError 2 "x1"] } ∧
    ((processDataRow { contactos := [], loadErrors := [] } 2
        ["2", "B", "b@x.com", "5550000000"]).loadErrors =
      [] ++ fieldCheckErrors 2 "2" "b@x.com" "5550000000" 2 [] ∧
    (processDataRow { contactos := [], loadErrors := [] } 2
        ["2", "B", "b@x.com", "5550000000"]).contactos =
      (if fieldCheckErrors 2 "2" "b@x.com" "5550000000" 2 [] = [] then
        [] ++ [{ claveCliente := 2, nombre := "B", correo := "b@x.com",
                 telefonoContacto := "5550000000" }]
      else [])) :=
  ⟨row_error_accumulation_behavior.1 _ 2 _ "1" "" "a@x.com" "123" (by decide)
      (by decide) (by decide) (by decide) (by decide) (by decide),
    row_error_accumulation_behavior.2.1 _ 2 _ "x1" "B" "b@x.com" "5550000000" (by decide)
      (by decide) (by decide) (by decide) (by decide) (by decide) (by decide),
    row_error_accumulation_behavior.2.2 { contactos := [], loadErrors := [] } 2
      ["2", "B", "b@x.com", "5550000000"] "2" "B" "b@x.com" "5550000000" 2 (by decide)
      (by decide) (by decide) (by decide) (by decide) (by decide) (by decide) (by decide)⟩

/-! ## C8 -/

/-- Helper: the decimal form of a positive key is a nonempty string. -/
lemma goItoa_ne_empty {k : Int} (h : 0 < k) : goItoa k ≠ "" := by
  intro he
  have hdata := congrArg String.data he
  rw [goItoa_pos_data h] at hdata
  exact (natToChars_spec k.toNat k.toNat (by omega) le_rfl).1 hdata

/-- Load-time validity of one record's saved row, plus trim-stability of its
fields (the hypothesis the amended round-trip claim adds). -/
def loadValidContacto (c : Contacto) : Prop :=
  goTrimSpace c.nombre = c.nombre ∧ c.nombre ≠ "" ∧
  goTrimSpace c.correo = c.correo ∧ c.correo ≠ "" ∧
  goTrimSpace c.telefonoContacto = c.telefonoContacto ∧ c.telefonoContacto ≠ "" ∧
  0 < c.claveCliente ∧ c.claveCliente ≤ int64Max ∧
  c.telefonoContacto.utf8ByteSize = 10 ∧
  c.telefonoContacto.data.any (fun ch => ch < '0' || '9' < ch) = false ∧
  goContains c.correo "@" = true

instance loadValidContacto.decidable (c : Contacto) : Decidable (loadValidContacto c) := by
  unfold loadValidContacto
  infer_instance

/-- Helper: loading the saved rows of valid, key-distinct records appends
exactly those records and produces no errors, for any already-accepted prefix
disjoint from them. -/
lemma loadAux_saved : ∀ (cs pre : List Contacto) (i : Nat),
    (∀ c ∈ cs, loadValidContacto c) →
    (((pre ++ cs).map (fun c => c.claveCliente)).Nodup) →
    loadAux { contactos := pre, loadErrors := [] } i
      (cs.map (fun c => [goItoa c.claveCliente, c.nombre, c.correo, c.telefonoContacto])) =
      { contactos := pre ++ cs, loadErrors := [] } := by
  intro cs
  induction cs with
  | nil => intro pre i _ _; simp [loadAux]
  | cons c t ih =>
    intro pre i hv hnd
    obtain ⟨ht1, ht2, ht3, ht4, ht5, ht6, hpos, hmax, hlen, hdig, hmail⟩ := hv c (by simp)
    have hdup : pre.any (fun x => x.claveCliente == c.claveCliente) = false := by
      rw [List.map_append, List.nodup_append] at hnd
      obtain ⟨-, -, hdisj⟩ := hnd
      rw [List.any_eq_false]
      intro x hx
      simp only [beq_iff_eq]
      intro hxe
      exact hdisj (a := c.claveCliente) (by rw [← hxe]; exact List.mem_map_of_mem _ hx)
        (by simp)
    have hatrim : goTrimSpace (goItoa c.claveCliente) = goItoa c.claveCliente :=
      goTrimSpace_of_all_digits (goItoa_data_all_digits hpos)
    have hefe : emptyFieldErrors (i + 1) (goItoa c.claveCliente) c.nombre c.correo
        c.telefonoContacto = [] := by
      unfold emptyFieldErrors
      rw [if_neg (goItoa_ne_empty hpos), if_neg ht2, if_neg ht4, if_neg ht6]
      simp
    have hfce : fieldCheckErrors (i + 1) (goItoa c.claveCliente) c.correo
        c.telefonoContacto c.claveCliente pre = [] := by
      unfold fieldCheckErrors
      rw [if_neg (by omega), if_neg (by simp [hlen]), if_neg (by simp [hdig]),
        if_neg (by simp [hmail]), if_neg (by simp [hdup])]
      simp
    have hstep : processDataRow { contactos := pre, loadErrors := [] } (i + 1)
        [goItoa c.claveCliente, c.nombre, c.correo, c.telefonoContacto] =
        { contactos := pre ++ [c], loadErrors := [] } := by
      unfold processDataRow
      rw [if_neg (by simp)]
      show processFullRow _ (i + 1) (goTrimSpace (goItoa c.claveCliente))
        (goTrimSpace c.nombre) (goTrimSpace c.correo) (goTrimSpace c.telefonoContacto) = _
      rw [hatrim, ht1, ht3, ht5]
      unfold processFullRow
      rw [hefe]
      simp only [List.length_nil, gt_iff_lt, lt_self_iff_false, if_false]
      rw [goAtoi_goItoa hpos hmax]
      dsimp only
      rw [hfce, if_neg (by simp)]
      rfl
    simp only [List.map_cons, loadAux]
    rw [hstep]
    have hih := ih (pre ++ [c]) (i + 1) (fun x hx => hv x (List.mem_cons_of_mem _ hx))
      (by rw [List.append_assoc]; simpa using hnd)
    rw [hih, List.append_assoc]
    simp

/-- A contact whose name carries a leading space: every load-time check passes
on its saved row, yet reloading trims the name. -/
def spaceAnaC : Contacto :=
  { claveCliente := 1, nombre := " Ana", correo := "ana@x.com",
    telefonoContacto := "5551234567" }

/-- C8 counterexample: the freshly-saved file of the collection [spaceAnaC]
has no invalid row — reloading it records no RowError — yet the reloaded
collection is NOT identical to the original: the leading space of the name is
trimmed away, so a field value changed. -/
theorem roundtrip_trims_fields_counterexample :
    (loadFromExcel (saveToExcel [spaceAnaC])).loadErrors = [] ∧
    (loadFromExcel (saveToExcel [spaceAnaC])).contactos ≠ [spaceAnaC] ∧
    (loadFromExcel (saveToExcel [spaceAnaC])).contactos = [anaC] :=
  ⟨by decide, by decide, by decide⟩

/-- C8 (amended): saving a collection (header first, then one row per record
in order) and reloading yields the identical collection — same keys, same
field values, same count, and no RowError — provided every record passes the
load-time checks AND additionally every string field is whitespace-trim-stable
(without trim-stability the reload returns trimmed values instead; see the
counterexample), with pairwise distinct keys. -/
theorem save_then_load_roundtrip :
    ∀ contactos : List Contacto,
      (∀ c ∈ contactos, loadValidContacto c) →
      ((contactos.map (fun c => c.claveCliente)).Nodup) →
      loadFromExcel (saveToExcel contactos) =
        { contactos := contactos, loadErrors := [] } := by
  intro contactos hv hnd
  exact loadAux_saved contactos [] 1 hv (by simpa using hnd)

/-- C8 witness: the round-trip equality applied at a concrete two-record
collection whose rows are valid and trim-stable. -/
theorem save_then_load_roundtrip_witness :
    loadFromExcel (saveToExcel [anaC, betoC]) =
      { contactos := [anaC, betoC], loadErrors := [] } :=
  save_then_load_roundtrip [anaC, betoC] (by decide) (by decide)
